import Mathlib

/-!
Shallow embedding of `services/geminiService.ts` from the Image-App repository.

The service module exports three async functions — `generateImage`, `editImage`,
`getPosturePrompts` — each of which reads the credential `process.env.API_KEY`
via `getAiClient`, issues one call to the external `@google/genai` SDK, parses
the response, and wraps every failure of the `try` body into one generic
`Error` per operation in its `catch` clause.

Modelling decisions:
* JavaScript exceptions become `Except JsError α`.  `JsError.error` is a
  `new Error(msg)` thrown by the repository's own code, `JsError.remote` is an
  error raised by the awaited SDK call (network/auth/quota/…, detail opaque),
  `JsError.typeError` is the runtime fault raised by a property access on
  `undefined`, and `JsError.syntaxError` is a `JSON.parse` failure.
* `process.env.API_KEY` is an explicit parameter `env : Option String`
  (`none` = variable unset).  JavaScript truthiness of `!apiKey` is `jsFalsy`.
* The external SDK call is an explicit parameter: the caller supplies the
  outcome `remote : Except JsError Response` that awaiting the SDK would have
  produced.  Each operation additionally returns the request it sent as an
  `Option` — `none` means the SDK was never invoked (no network call was
  attempted), `some req` records the exact model name / payload / config the
  source passes to the SDK.
* `console.error` logging in each `catch` clause has no observable effect on
  the returned value and is not modelled.
-/

namespace GeminiService

/-- A JavaScript exception value, as observed by a `catch` clause. -/
inductive JsError where
  | error (msg : String)
  | remote (detail : String)
  | typeError (msg : String)
  | syntaxError (msg : String)
deriving DecidableEq

/-- The `GoogleGenAI` client handle constructed by `getAiClient`. -/
structure Client where
  apiKey : String
deriving DecidableEq

/-- The message of the error thrown by `getAiClient` when `API_KEY` is unset. -/
def missingKeyMsg : String := "API_KEY environment variable not set"

/-- JavaScript truthiness test `!apiKey` for `apiKey : string | undefined`:
falsy exactly when the variable is unset or holds the empty string. -/
def jsFalsy (s : Option String) : Bool :=
  match s with
  | none => true
  | some str => str = ""

/-- `getAiClient` (source lines 4-10): reads `process.env.API_KEY`, throws when
it is falsy, otherwise constructs the SDK client. -/
def getAiClient (env : Option String) : Except JsError Client :=
  let apiKey := env
  if jsFalsy apiKey then
    Except.error (JsError.error missingKeyMsg)
  else
    Except.ok { apiKey := apiKey.getD "" }

/-! ## generateImage -/

/-- The `image` object inside one generated-image entry of the SDK response. -/
structure ImageObj where
  imageBytes : String
deriving DecidableEq

/-- One entry of `response.generatedImages`. -/
structure GeneratedImageEntry where
  image : ImageObj
deriving DecidableEq

/-- The SDK response of `ai.models.generateImages`.  `generatedImages` may be
absent (`undefined`), which the source guards with a truthiness check. -/
structure GenerateImagesResponse where
  generatedImages : Option (List GeneratedImageEntry)
deriving DecidableEq

/-- The request the source passes to `ai.models.generateImages`. -/
structure GenerateImagesRequest where
  model : String
  prompt : String
  numberOfImages : Nat
  outputMimeType : String
  aspectRatio : String
deriving DecidableEq

def imageModel : String := "imagen-4.0-generate-001"

/-- The error message thrown inside the `try` when zero images come back. -/
def noImageMsg : String := "No image was generated. The response may have been blocked."

/-- The generic message `generateImage` rethrows from its `catch` clause. -/
def generateFailMsg : String := "Failed to generate image. Please check the prompt or try again later."

/-- The `try` body of `generateImage` (source lines 13-30).  Returns the
outcome together with the request sent to the SDK (`none` = SDK never called). -/
def generateImageTry (env : Option String) (prompt : String)
    (remote : Except JsError GenerateImagesResponse) :
    Except JsError String × Option GenerateImagesRequest :=
  match getAiClient env with
  | Except.error e => (Except.error e, none)
  | Except.ok _ai =>
    let req : GenerateImagesRequest :=
      { model := imageModel, prompt := prompt, numberOfImages := 1,
        outputMimeType := "image/jpeg", aspectRatio := "1:1" }
    match remote with
    | Except.error e => (Except.error e, some req)
    | Except.ok response =>
      -- `if (response.generatedImages && response.generatedImages.length > 0)`
      match response.generatedImages with
      | some (first :: _) =>
        let base64ImageBytes : String := first.image.imageBytes
        (Except.ok ("data:image/jpeg;base64," ++ base64ImageBytes), some req)
      | some [] => (Except.error (JsError.error noImageMsg), some req)
      | none => (Except.error (JsError.error noImageMsg), some req)

/-- `generateImage` (source lines 12-35): the `try` body wrapped by the
`catch` clause, which replaces any thrown error by the generic message. -/
def generateImage (env : Option String) (prompt : String)
    (remote : Except JsError GenerateImagesResponse) :
    Except JsError String × Option GenerateImagesRequest :=
  match generateImageTry env prompt remote with
  | (Except.ok v, req) => (Except.ok v, req)
  | (Except.error _e, req) => (Except.error (JsError.error generateFailMsg), req)

/-! ## editImage -/

/-- The `inlineData` payload of a response or request part. -/
structure InlineData where
  mimeType : String
  data : String
deriving DecidableEq

/-- One part of a multimodal content: optional `text`, optional `inlineData`.
Either field may be absent (`undefined`). -/
structure Part where
  text : Option String := none
  inlineData : Option InlineData := none
deriving DecidableEq

/-- A candidate's `content`; `parts` may be absent. -/
structure Content where
  parts : Option (List Part)
deriving DecidableEq

/-- One entry of `response.candidates`; `content` may be absent. -/
structure Candidate where
  content : Option Content
deriving DecidableEq

/-- The SDK response of `ai.models.generateContent` for the edit call;
`candidates` may be absent. -/
structure GenerateContentResponse where
  candidates : Option (List Candidate)
deriving DecidableEq

/-- The SDK `Modality` enum values the source uses. -/
inductive Modality where
  | IMAGE
  | TEXT
deriving DecidableEq

/-- The request the source passes to `ai.models.generateContent` for editing. -/
structure GenerateContentRequest where
  model : String
  parts : List Part
  responseModalities : List Modality
deriving DecidableEq

def editModel : String := "gemini-2.5-flash-image"

/-- The error message thrown inside the `try` when no part carries an image. -/
def noEditMsg : String := "No edited image was generated. The response may have been blocked."

/-- The generic message `editImage` rethrows from its `catch` clause. -/
def editFailMsg : String := "Failed to edit image. Please check the prompt or try again later."

/-- The JavaScript evaluation of `response.candidates[0].content.parts`
followed by `for (const part of parts)` (source line 58): each step on an
absent (`undefined`) value raises a `TypeError`, which the surrounding
`try` catches. -/
def candidateParts (response : GenerateContentResponse) : Except JsError (List Part) :=
  match response.candidates with
  | none => Except.error (JsError.typeError "cannot index undefined")
  | some [] => Except.error (JsError.typeError "cannot read content of undefined")
  | some (c :: _) =>
    match c.content with
    | none => Except.error (JsError.typeError "cannot read parts of undefined")
    | some content =>
      match content.parts with
      | none => Except.error (JsError.typeError "undefined is not iterable")
      | some parts => Except.ok parts

/-- The `for` loop of `editImage` (source lines 58-63): the first part whose
`inlineData` is truthy wins; later parts are never inspected. -/
def firstInlineImage (parts : List Part) : Option InlineData :=
  match parts with
  | [] => none
  | p :: rest =>
    match p.inlineData with
    | some d => some d
    | none => firstInlineImage rest

/-- The `try` body of `editImage` (source lines 38-64). -/
def editImageTry (env : Option String) (base64Image mimeType prompt : String)
    (remote : Except JsError GenerateContentResponse) :
    Except JsError String × Option GenerateContentRequest :=
  match getAiClient env with
  | Except.error e => (Except.error e, none)
  | Except.ok _ai =>
    let imagePart : Part := { inlineData := some { data := base64Image, mimeType := mimeType } }
    let textPart : Part := { text := some prompt }
    let req : GenerateContentRequest :=
      { model := editModel, parts := [imagePart, textPart],
        responseModalities := [Modality.IMAGE] }
    match remote with
    | Except.error e => (Except.error e, some req)
    | Except.ok response =>
      match candidateParts response with
      | Except.error e => (Except.error e, some req)
      | Except.ok parts =>
        match firstInlineImage parts with
        | some d =>
          let base64ImageBytes : String := d.data
          (Except.ok ("data:" ++ d.mimeType ++ ";base64," ++ base64ImageBytes), some req)
        | none => (Except.error (JsError.error noEditMsg), some req)

/-- `editImage` (source lines 37-70): the `try` body wrapped by the `catch`
clause, which replaces any thrown error by the generic message. -/
def editImage (env : Option String) (base64Image mimeType prompt : String)
    (remote : Except JsError GenerateContentResponse) :
    Except JsError String × Option GenerateContentRequest :=
  match editImageTry env base64Image mimeType prompt remote with
  | (Except.ok v, req) => (Except.ok v, req)
  | (Except.error _e, req) => (Except.error (JsError.error editFailMsg), req)

/-! ## getPosturePrompts -/

/-- A JSON value, as produced by `JSON.parse`.  Numbers are kept only to make
the value space honest; no claim involves them. -/
inductive Json where
  | null
  | bool (b : Bool)
  | num (n : Int)
  | str (s : String)
  | arr (elems : List Json)
  | obj (fields : List (String × Json))

/-- The SDK `Type` enum values the source's response schema uses (named
`SchemaType` here because `Type` is a Lean keyword). -/
inductive SchemaType where
  | ARRAY
  | OBJECT
  | STRING
deriving DecidableEq

/-- One property declaration inside the response schema. -/
structure SchemaProperty where
  type : SchemaType
  description : String
deriving DecidableEq

/-- The `items` object of the response schema. -/
structure ItemsSchema where
  type : SchemaType
  properties : List (String × SchemaProperty)
  required : List String
deriving DecidableEq

/-- The `responseSchema` object of the posture-prompts request. -/
structure ResponseSchema where
  type : SchemaType
  items : ItemsSchema
deriving DecidableEq

/-- The `responseSchema` literal of `getPosturePrompts` (source lines 88-104). -/
def postureSchema : ResponseSchema :=
  { type := SchemaType.ARRAY,
    items :=
      { type := SchemaType.OBJECT,
        properties :=
          [("title", { type := SchemaType.STRING,
                       description := "The short, catchy title of the prompt." }),
           ("prompt", { type := SchemaType.STRING,
                        description := "The detailed prompt for editing an image posture." })],
        required := ["title", "prompt"] } }

/-- The static instruction template literal of `getPosturePrompts`
(source lines 76-81); `\x27` is the ASCII apostrophe. -/
def posturePromptText : String :=
  "\n      Generate 8 detailed, creative image editing prompts for a generative AI model like \x27nano banana\x27 (gemini-2.5-flash-image).\n      These prompts should focus on changing a person\x27s posture in an existing photo. For example, \x27Make the person stand up straight\x27 or \x27Change their pose to be sitting cross-legged\x27.\n      Each prompt should include a short, catchy title and the detailed prompt text.\n      Ensure the output is a valid JSON array of objects, where each object has \x27title\x27 and \x27prompt\x27 keys.\n    "

/-- The SDK response of the text-generation call: its `text` accessor. -/
structure TextResponse where
  text : String
deriving DecidableEq

/-- The request the source passes to `ai.models.generateContent` for the
posture-prompts call. -/
structure TextGenRequest where
  model : String
  contents : String
  responseMimeType : String
  responseSchema : ResponseSchema
deriving DecidableEq

def postureModel : String := "gemini-2.5-flash"

/-- The generic message `getPosturePrompts` rethrows from its `catch` clause. -/
def fetchPromptsFailMsg : String := "Failed to fetch posture prompt ideas."

/-- The `try` body of `getPosturePrompts` (source lines 74-110).
`JSON.parse` is a JavaScript builtin, external to the repository, so it is an
explicit parameter `jsonParse`; its failure is a thrown `SyntaxError`.  The
TypeScript cast `prompts as PosturePrompt[]` on line 110 is a compile-time
assertion with no runtime effect, so the success value is the raw parsed JSON
value, whatever its shape. -/
def getPosturePromptsTry (env : Option String)
    (jsonParse : String → Except String Json)
    (remote : Except JsError TextResponse) :
    Except JsError Json × Option TextGenRequest :=
  match getAiClient env with
  | Except.error e => (Except.error e, none)
  | Except.ok _ai =>
    let req : TextGenRequest :=
      { model := postureModel, contents := posturePromptText,
        responseMimeType := "application/json", responseSchema := postureSchema }
    match remote with
    | Except.error e => (Except.error e, some req)
    | Except.ok response =>
      let jsonString := response.text.trim
      match jsonParse jsonString with
      | Except.error msg => (Except.error (JsError.syntaxError msg), some req)
      | Except.ok prompts => (Except.ok prompts, some req)

/-- `getPosturePrompts` (source lines 73-115): the `try` body wrapped by the
`catch` clause, which replaces any thrown error by the generic message. -/
def getPosturePrompts (env : Option String)
    (jsonParse : String → Except String Json)
    (remote : Except JsError TextResponse) :
    Except JsError Json × Option TextGenRequest :=
  match getPosturePromptsTry env jsonParse remote with
  | (Except.ok v, req) => (Except.ok v, req)
  | (Except.error _e, req) => (Except.error (JsError.error fetchPromptsFailMsg), req)

/-! ## Shape predicates for the spec's expected prompt-list shape

These predicates come from the spec's description of the expected structured
output (an array of objects, each with mandatory string fields `title` and
`prompt`); the source itself performs no such validation. -/

/-- JavaScript object-field lookup on a parsed JSON object. -/
def lookupField (fields : List (String × Json)) (name : String) : Option Json :=
  match fields with
  | [] => none
  | (k, v) :: rest => if k = name then some v else lookupField rest name

/-- Does the object have a string field of the given name? -/
def isStringField (fields : List (String × Json)) (name : String) : Bool :=
  match lookupField fields name with
  | some (Json.str _) => true
  | _ => false

/-- Does the object have a NON-EMPTY string field of the given name? -/
def isNonEmptyStringField (fields : List (String × Json)) (name : String) : Bool :=
  match lookupField fields name with
  | some (Json.str s) => s ≠ ""
  | _ => false

/-- The spec's expected element shape: an object with string fields
`title` and `prompt`. -/
def wellShapedPromptElem (j : Json) : Bool :=
  match j with
  | Json.obj fields => isStringField fields "title" && isStringField fields "prompt"
  | _ => false

/-! ## Concrete stub inputs used by witnesses and counterexamples

`\x7b` and `\x7d` in the strings below are the ASCII brace characters, and
`\x22`-free escaped quotes are written `\"`; each stub parse function returns
on its designated input exactly the value the JavaScript builtin `JSON.parse`
returns on that text, and a `SyntaxError` elsewhere. -/

/-- JSON text of an array holding one empty object (the five characters
bracket, brace, brace, bracket). -/
def malformedText : String := "[\x7b\x7d]"

/-- `JSON.parse` restricted to `malformedText`: parsing an array holding one
empty object succeeds and yields an array with one empty object — an element
missing both required fields. -/
def malformedParse : String → Except String Json :=
  fun s =>
    if s = malformedText.trim then Except.ok (Json.arr [Json.obj []])
    else Except.error "SyntaxError: Unexpected token"

/-- A stub remote response: valid JSON text for 8 well-shaped objects. -/
def stubText8 : String :=
  "[\x7b\"title\":\"Stand Tall\",\"prompt\":\"Make the person stand up straight with shoulders back.\"\x7d,\x7b\"title\":\"Power Pose\",\"prompt\":\"Change their pose to hands on hips.\"\x7d,\x7b\"title\":\"Crossed Legs\",\"prompt\":\"Change their pose to be sitting cross-legged.\"\x7d,\x7b\"title\":\"Lean Back\",\"prompt\":\"Make the person lean back against a wall.\"\x7d,\x7b\"title\":\"Arms Up\",\"prompt\":\"Raise both arms above the head in celebration.\"\x7d,\x7b\"title\":\"Casual Slouch\",\"prompt\":\"Relax the posture into a casual slouch.\"\x7d,\x7b\"title\":\"Mid Stride\",\"prompt\":\"Change the pose to walking mid stride.\"\x7d,\x7b\"title\":\"Deep Squat\",\"prompt\":\"Change their pose to a deep squat.\"\x7d]"

/-- The value `JSON.parse` yields on `stubText8`: 8 objects, in text order. -/
def stubElems8 : List Json :=
  [Json.obj [("title", Json.str "Stand Tall"),
             ("prompt", Json.str "Make the person stand up straight with shoulders back.")],
   Json.obj [("title", Json.str "Power Pose"),
             ("prompt", Json.str "Change their pose to hands on hips.")],
   Json.obj [("title", Json.str "Crossed Legs"),
             ("prompt", Json.str "Change their pose to be sitting cross-legged.")],
   Json.obj [("title", Json.str "Lean Back"),
             ("prompt", Json.str "Make the person lean back against a wall.")],
   Json.obj [("title", Json.str "Arms Up"),
             ("prompt", Json.str "Raise both arms above the head in celebration.")],
   Json.obj [("title", Json.str "Casual Slouch"),
             ("prompt", Json.str "Relax the posture into a casual slouch.")],
   Json.obj [("title", Json.str "Mid Stride"),
             ("prompt", Json.str "Change the pose to walking mid stride.")],
   Json.obj [("title", Json.str "Deep Squat"),
             ("prompt", Json.str "Change their pose to a deep squat.")]]

/-- `JSON.parse` restricted to `stubText8`. -/
def stubParse8 : String → Except String Json :=
  fun s =>
    if s = stubText8.trim then Except.ok (Json.arr stubElems8)
    else Except.error "SyntaxError: Unexpected token"

/-! ## Helper lemmas -/

/-- If no part carries inline data, the scanning loop finds nothing. -/
theorem firstInlineImage_all_none (parts : List Part)
    (h : ∀ q ∈ parts, q.inlineData = none) : firstInlineImage parts = none := by
  induction parts with
  | nil => rfl
  | cons p rest ih =>
    have hp : p.inlineData = none := h p (by simp)
    have hrest := ih (fun q hq => h q (by simp [hq]))
    simp [firstInlineImage, hp, hrest]

/-- The scanning loop skips a prefix of parts without inline data and returns
the first inline payload it meets, never inspecting later parts. -/
theorem firstInlineImage_skip (pre : List Part) (part : Part) (post : List Part)
    (hpre : ∀ q ∈ pre, q.inlineData = none) (d : InlineData)
    (hpart : part.inlineData = some d) :
    firstInlineImage (pre ++ part :: post) = some d := by
  induction pre with
  | nil => simp [firstInlineImage, hpart]
  | cons q rest ih =>
    have hq : q.inlineData = none := hpre q (by simp)
    have hrest := ih (fun r hr => hpre r (by simp [hr]))
    simpa [firstInlineImage, hq] using hrest

/-! ## Claims -/

/-- C1 (counterexample): the claim says that with `API_KEY` absent the call
fails with the distinct missing-credential error, not the operation's generic
failure message.  At the concrete input below (unset environment), the error
`generateImage` raises carries the generic message, which differs from the
missing-credential message — `getAiClient`'s throw happens inside the `try`
and is swallowed by the `catch`. -/
theorem C1_counterexample :
    ((generateImage none "a red cube" (Except.error (JsError.remote "network unreachable"))).1
        = Except.error (JsError.error generateFailMsg)) ∧
    ((generateImage none "a red cube" (Except.error (JsError.remote "network unreachable"))).2
        = none) ∧
    generateFailMsg ≠ missingKeyMsg :=
  ⟨rfl, rfl, by decide⟩

/-- C1 (amended): with `API_KEY` absent, each of the three operations fails —
the missing-credential error is raised before the SDK is invoked and no remote
call is attempted (the returned request component is `none`) — but the error
the caller observes is the operation's generic failure message, because the
credential check sits inside the `try` whose `catch` replaces every error. -/
theorem C1_missing_key_generic_error_no_call :
    (∀ prompt remote, generateImage none prompt remote
        = (Except.error (JsError.error generateFailMsg), none)) ∧
    (∀ b m p remote, editImage none b m p remote
        = (Except.error (JsError.error editFailMsg), none)) ∧
    (∀ jsonParse remote, getPosturePrompts none jsonParse remote
        = (Except.error (JsError.error fetchPromptsFailMsg), none)) :=
  ⟨fun _ _ => rfl, fun _ _ _ _ => rfl, fun _ _ => rfl⟩

/-- C10 (counterexample): the claim says that with `API_KEY` present but
empty, each operation fails with the missing-credential error.  At the
concrete input below (empty-string key), the error `editImage` raises carries
the generic failure message, not the missing-credential message. -/
theorem C10_counterexample :
    ((editImage (some "") "aW1nQnl0ZXM=" "image/png" "straighten posture"
        (Except.error (JsError.remote "unused"))).1
        = Except.error (JsError.error editFailMsg)) ∧
    ((editImage (some "") "aW1nQnl0ZXM=" "image/png" "straighten posture"
        (Except.error (JsError.remote "unused"))).2
        = none) ∧
    editFailMsg ≠ missingKeyMsg :=
  ⟨rfl, rfl, by decide⟩

/-- C10 (amended): an empty-string credential is treated exactly like an
absent one — `getAiClient` raises the same missing-credential error, no remote
call is attempted, and every operation returns exactly the same result as in
the absent case (which, at the public boundary, is the operation's generic
failure message, not the missing-credential error). -/
theorem C10_empty_key_like_absent :
    (getAiClient (some "") = Except.error (JsError.error missingKeyMsg) ∧
        getAiClient (some "") = getAiClient none) ∧
    (∀ prompt remote,
        generateImage (some "") prompt remote = generateImage none prompt remote ∧
        (generateImage (some "") prompt remote).2 = none) ∧
    (∀ b m p remote,
        editImage (some "") b m p remote = editImage none b m p remote ∧
        (editImage (some "") b m p remote).2 = none) ∧
    (∀ jsonParse remote,
        getPosturePrompts (some "") jsonParse remote = getPosturePrompts none jsonParse remote ∧
        (getPosturePrompts (some "") jsonParse remote).2 = none) :=
  ⟨⟨rfl, rfl⟩, fun _ _ => ⟨rfl, rfl⟩, fun _ _ _ _ => ⟨rfl, rfl⟩, fun _ _ => ⟨rfl, rfl⟩⟩

/-- C2 (counterexample): the claim says a parsed-but-ill-shaped response must
fail with the generic fetch error.  At the concrete input below, the remote
text parses as an array holding one empty object (both required fields
missing), and `getPosturePrompts` returns it as a success value — the source
performs no shape validation (`prompts as PosturePrompt[]` is a no-op cast). -/
theorem C2_counterexample :
    ((getPosturePrompts (some "key") malformedParse (Except.ok { text := malformedText })).1
        = Except.ok (Json.arr [Json.obj []])) ∧
    ((getPosturePrompts (some "key") malformedParse (Except.ok { text := malformedText })).1
        ≠ Except.error (JsError.error fetchPromptsFailMsg)) ∧
    wellShapedPromptElem (Json.obj []) = false := by
  have hk : ("key" : String) ≠ "" := by decide
  have h1 : (getPosturePrompts (some "key") malformedParse
      (Except.ok { text := malformedText })).1 = Except.ok (Json.arr [Json.obj []]) := by
    simp [getPosturePrompts, getPosturePromptsTry, getAiClient, jsFalsy, hk, malformedParse]
  refine ⟨h1, ?_, rfl⟩
  rw [h1]
  intro h
  cases h

/-- C2 (amended): `getPosturePrompts` performs no validation of the parsed
value's shape: whatever `JSON.parse` returns on the trimmed response text —
including elements missing required fields or with empty strings — is returned
unchanged as the success value; the generic fetch failure arises only when the
remote call raises or when the trimmed text fails to parse as JSON. -/
theorem C2_no_shape_validation (k text : String) (hk : k ≠ "")
    (jsonParse : String → Except String Json) :
    (∀ j, jsonParse text.trim = Except.ok j →
        (getPosturePrompts (some k) jsonParse (Except.ok { text := text })).1
          = Except.ok j) ∧
    (∀ msg, jsonParse text.trim = Except.error msg →
        (getPosturePrompts (some k) jsonParse (Except.ok { text := text })).1
          = Except.error (JsError.error fetchPromptsFailMsg)) := by
  constructor
  · intro j hparse
    simp [getPosturePrompts, getPosturePromptsTry, getAiClient, jsFalsy, hk, hparse]
  · intro msg hparse
    simp [getPosturePrompts, getPosturePromptsTry, getAiClient, jsFalsy, hk, hparse]

/-- C2 (witness): the amended theorem applied at the concrete ill-shaped
stub input. -/
theorem C2_witness :
    (getPosturePrompts (some "key") malformedParse (Except.ok { text := malformedText })).1
      = Except.ok (Json.arr [Json.obj []]) :=
  (C2_no_shape_validation "key" malformedText (by decide) malformedParse).1
    (Json.arr [Json.obj []]) (by simp [malformedParse])

/-- C3 (confirmed): for every remote response whose ordered part list contains
at least one part with inline image data, `editImage` returns the data of the
first such part wrapped as a data URI whose declared MIME type is that
response part's own MIME type — the conclusion does not depend on the input
MIME type `m`, on the earlier inline-data-free parts `pre`, or on the later
parts `post`. -/
theorem C3_edit_first_inline_part (k b m p : String) (hk : k ≠ "")
    (pre post : List Part) (hpre : ∀ q ∈ pre, q.inlineData = none)
    (part : Part) (d : InlineData) (hpart : part.inlineData = some d)
    (tail : List Candidate) :
    (editImage (some k) b m p
        (Except.ok
          { candidates :=
              some ({ content := some { parts := some (pre ++ part :: post) } } :: tail) })).1
      = Except.ok ("data:" ++ d.mimeType ++ ";base64," ++ d.data) := by
  have hfirst := firstInlineImage_skip pre part post hpre d hpart
  simp [editImage, editImageTry, getAiClient, jsFalsy, hk, candidateParts, hfirst]

/-- C3 (witness): the spec's concrete scenario — a text part followed by an
image part; the second part's data and MIME type are returned, the first is
ignored. -/
theorem C3_witness :
    (editImage (some "key") "cG5nQnl0ZXM=" "image/png" "rotate 90 degrees"
        (Except.ok
          { candidates :=
              some [{ content :=
                        some { parts :=
                                 some [{ text := some "ok" },
                                       { inlineData :=
                                           some { mimeType := "image/png",
                                                  data := "ZWRpdGVk" } }] } }] })).1
      = Except.ok ("data:" ++ "image/png" ++ ";base64," ++ "ZWRpdGVk") :=
  C3_edit_first_inline_part "key" "cG5nQnl0ZXM=" "image/png" "rotate 90 degrees" (by decide)
    [{ text := some "ok" }] [] (by decide)
    { inlineData := some { mimeType := "image/png", data := "ZWRpdGVk" } }
    { mimeType := "image/png", data := "ZWRpdGVk" } rfl []

/-- C4 (confirmed): for every non-empty prompt and every remote response with
at least one generated image artifact, `generateImage` succeeds with the
string `data:image/jpeg;base64,` followed by the first artifact's bytes, and
the request it sent asked for JPEG output. -/
theorem C4_generate_success (k prompt bytes : String) (hk : k ≠ "")
    (_hprompt : prompt ≠ "") (rest : List GeneratedImageEntry) :
    generateImage (some k) prompt
        (Except.ok { generatedImages := some ({ image := { imageBytes := bytes } } :: rest) })
      = (Except.ok ("data:image/jpeg;base64," ++ bytes),
         some { model := imageModel, prompt := prompt, numberOfImages := 1,
                outputMimeType := "image/jpeg", aspectRatio := "1:1" }) := by
  simp [generateImage, generateImageTry, getAiClient, jsFalsy, hk]

/-- C4 (witness): the spec's concrete scenario — `generate` of `a red cube`
against a stub returning one JPEG artifact yields exactly the data URI of the
artifact's bytes. -/
theorem C4_witness :
    generateImage (some "key") "a red cube"
        (Except.ok { generatedImages := some [{ image := { imageBytes := "/9j/4AAQSkZJRg==" } }] })
      = (Except.ok ("data:image/jpeg;base64," ++ "/9j/4AAQSkZJRg=="),
         some { model := imageModel, prompt := "a red cube", numberOfImages := 1,
                outputMimeType := "image/jpeg", aspectRatio := "1:1" }) :=
  C4_generate_success "key" "a red cube" "/9j/4AAQSkZJRg==" (by decide) (by decide) []

/-- C5 (confirmed): when the remote image-generation call completes without
error but yields zero artifacts (an empty list, or an absent
`generatedImages` field), `generateImage` fails with the generic
generation-failure error and never returns a success value. -/
theorem C5_generate_zero_artifacts (k prompt : String) (hk : k ≠ "") :
    ((generateImage (some k) prompt (Except.ok { generatedImages := some [] })).1
        = Except.error (JsError.error generateFailMsg)) ∧
    ((generateImage (some k) prompt (Except.ok { generatedImages := none })).1
        = Except.error (JsError.error generateFailMsg)) ∧
    (∀ s, (generateImage (some k) prompt (Except.ok { generatedImages := some [] })).1
        ≠ Except.ok s) ∧
    (∀ s, (generateImage (some k) prompt (Except.ok { generatedImages := none })).1
        ≠ Except.ok s) := by
  refine ⟨?_, ?_, ?_, ?_⟩ <;>
    simp [generateImage, generateImageTry, getAiClient, jsFalsy, hk]

/-- C5 (witness): the theorem applied at a concrete key and prompt. -/
theorem C5_witness :
    (generateImage (some "key") "sunset over the sea"
        (Except.ok { generatedImages := some [] })).1
      = Except.error (JsError.error generateFailMsg) :=
  (C5_generate_zero_artifacts "key" "sunset over the sea" (by decide)).1

/-- C6 (confirmed): if every part of the remote response lacks inline image
data, `editImage` fails with the generic edit-failure error and never returns
a success value. -/
theorem C6_edit_no_inline_data (k b m p : String) (hk : k ≠ "")
    (parts : List Part) (hparts : ∀ q ∈ parts, q.inlineData = none)
    (tail : List Candidate) :
    ((editImage (some k) b m p
        (Except.ok
          { candidates :=
              some ({ content := some { parts := some parts } } :: tail) })).1
        = Except.error (JsError.error editFailMsg)) ∧
    (∀ s, (editImage (some k) b m p
        (Except.ok
          { candidates :=
              some ({ content := some { parts := some parts } } :: tail) })).1
        ≠ Except.ok s) := by
  have hnone := firstInlineImage_all_none parts hparts
  have h1 : (editImage (some k) b m p
      (Except.ok
        { candidates :=
            some ({ content := some { parts := some parts } } :: tail) })).1
      = Except.error (JsError.error editFailMsg) := by
    simp [editImage, editImageTry, getAiClient, jsFalsy, hk, candidateParts, hnone]
  refine ⟨h1, ?_⟩
  intro s h
  rw [h1] at h
  cases h

/-- C6 (witness): the theorem applied at a concrete text-only response. -/
theorem C6_witness :
    (editImage (some "key") "aW1nQnl0ZXM=" "image/png" "straighten the back"
        (Except.ok
          { candidates :=
              some [{ content := some { parts := some [{ text := some "blocked" }] } }] })).1
      = Except.error (JsError.error editFailMsg) :=
  (C6_edit_no_inline_data "key" "aW1nQnl0ZXM=" "image/png" "straighten the back" (by decide)
    [{ text := some "blocked" }] (by decide) []).1

/-- C7 (confirmed): for every remote text response whose trimmed content
parses as JSON of the expected array shape, `getPosturePrompts` returns the
parsed sequence as-is — the very same array value, hence the same length and
the same element order as the response array. -/
theorem C7_posture_returned_as_is (k text : String) (hk : k ≠ "")
    (jsonParse : String → Except String Json) (elems : List Json)
    (hparse : jsonParse text.trim = Except.ok (Json.arr elems))
    (_hshape : elems.all wellShapedPromptElem = true) :
    (getPosturePrompts (some k) jsonParse (Except.ok { text := text })).1
      = Except.ok (Json.arr elems) := by
  simp [getPosturePrompts, getPosturePromptsTry, getAiClient, jsFalsy, hk, hparse]

/-- C7 (witness): the spec's concrete scenario — a stub returning valid JSON
for 8 objects yields those 8 objects, in stub order. -/
theorem C7_witness :
    ((getPosturePrompts (some "key") stubParse8 (Except.ok { text := stubText8 })).1
        = Except.ok (Json.arr stubElems8)) ∧
    stubElems8.length = 8 :=
  ⟨C7_posture_returned_as_is "key" stubText8 (by decide) stubParse8 stubElems8
      (by simp [stubParse8]) (by decide),
   rfl⟩

/-- C8 (confirmed): every error raised by the remote call — whatever its
detail — is caught at the component boundary and replaced by that operation's
single generic user-facing message, a fixed string independent of the original
error, for all three operations. -/
theorem C8_remote_error_generic (k detail : String) (hk : k ≠ "") :
    (∀ prompt, (generateImage (some k) prompt (Except.error (JsError.remote detail))).1
        = Except.error (JsError.error generateFailMsg)) ∧
    (∀ b m p, (editImage (some k) b m p (Except.error (JsError.remote detail))).1
        = Except.error (JsError.error editFailMsg)) ∧
    (∀ jsonParse, (getPosturePrompts (some k) jsonParse (Except.error (JsError.remote detail))).1
        = Except.error (JsError.error fetchPromptsFailMsg)) := by
  refine ⟨fun prompt => ?_, fun b m p => ?_, fun jsonParse => ?_⟩
  · simp [generateImage, generateImageTry, getAiClient, jsFalsy, hk]
  · simp [editImage, editImageTry, getAiClient, jsFalsy, hk]
  · simp [getPosturePrompts, getPosturePromptsTry, getAiClient, jsFalsy, hk]

/-- C8 (witness): the theorem applied at a concrete transport error. -/
theorem C8_witness :
    (generateImage (some "key") "a red cube" (Except.error (JsError.remote "ECONNRESET"))).1
      = Except.error (JsError.error generateFailMsg) :=
  (C8_remote_error_generic "key" "ECONNRESET" (by decide)).1 "a red cube"

/-- C9 (confirmed): `editImage` is total at its public boundary — for every
environment, input, and remote outcome its error, when it errs, is exactly the
generic edit-failure error; in particular each malformed response (no
`candidates`, empty `candidates`, a candidate without `content`, a `content`
without `parts`) makes the property access fault inside the `try`, and the
call fails with that same generic error. -/
theorem C9_edit_total (k b m p : String) (hk : k ≠ "") :
    (∀ env b2 m2 p2 remote,
        ((editImage env b2 m2 p2 remote).1 = Except.error (JsError.error editFailMsg)) ∨
        (∃ s, (editImage env b2 m2 p2 remote).1 = Except.ok s)) ∧
    ((editImage (some k) b m p (Except.ok { candidates := none })).1
        = Except.error (JsError.error editFailMsg)) ∧
    ((editImage (some k) b m p (Except.ok { candidates := some [] })).1
        = Except.error (JsError.error editFailMsg)) ∧
    ((editImage (some k) b m p (Except.ok { candidates := some [{ content := none }] })).1
        = Except.error (JsError.error editFailMsg)) ∧
    ((editImage (some k) b m p
        (Except.ok { candidates := some [{ content := some { parts := none } }] })).1
        = Except.error (JsError.error editFailMsg)) := by
  refine ⟨fun env b2 m2 p2 remote => ?_, ?_, ?_, ?_, ?_⟩
  · rcases hTry : editImageTry env b2 m2 p2 remote with ⟨r, req⟩
    cases r with
    | ok v => exact Or.inr ⟨v, by simp [editImage, hTry]⟩
    | error e => exact Or.inl (by simp [editImage, hTry])
  all_goals simp [editImage, editImageTry, getAiClient, jsFalsy, hk, candidateParts]

/-- C9 (witness): the theorem applied at a concrete response with no
candidates. -/
theorem C9_witness :
    (editImage (some "key") "aW1n" "image/jpeg" "sit down"
        (Except.ok { candidates := none })).1
      = Except.error (JsError.error editFailMsg) :=
  (C9_edit_total "key" "aW1n" "image/jpeg" "sit down" (by decide)).2.1

end GeminiService
